import Mathlib

/-!
Verification development for `src/main.py` of the personal-gantt-maker
repository (a Dash app rendering Gantt charts from JSON schedule files).

The embedding models the decoded JSON documents (`json.load` output) as the
inductive `JVal`, CPython runtime errors as `PyError`, and the functions
`prepare_gantt_data`, `create_gantt_figure`, `load_json_files` and
`export_chart` as Lean functions over those types.  File I/O is factored out:
a function that in Python reads a file here receives the decoded document.

Modelling notes, faithful to CPython semantics:
* JSON numbers are restricted to integers (`Int`); every claim under study
  concerns integer `duration_days` values and integer-free date strings.
* `JVal.obj` models an already-decoded Python dict: keys are unique and the
  list order is the dict's insertion order.
* A `datetime` produced by `strptime('%Y-%m-%d')` and shifted by a whole
  number of days always sits at midnight, so it is represented by its
  proleptic-Gregorian ordinal (CPython `date.toordinal`, 0001-01-01 = 1).
* `datetime.strptime(s, '%Y-%m-%d')` is modelled after CPython `_strptime`:
  the year field is exactly four digits, month and day fields are one or two
  digits with regex-level ranges 1..12 and 1..31, the whole string must be
  consumed, and the resulting (year, month, day) must be a real calendar
  date with year >= 1.  Digits are modelled as ASCII digits (CPython's regex
  additionally accepts non-ASCII Unicode decimal digits; not modelled).
* `datetime.__add__(timedelta)` raises `OverflowError` unless the resulting
  ordinal lies in [1, _MAXORDINAL] = [1, 3652059] (years 1..9999); a
  `timedelta(days=d)` with |d| > 999999999 also raises `OverflowError`, and
  any such shift necessarily leaves [1, 3652059] as well, so the single
  bound check is extensionally exact.
-/

/-- Decoded JSON value, the output type of Python's `json.load`
(numbers restricted to integers). -/
inductive JVal where
  | null : JVal
  | bool : Bool → JVal
  | num : Int → JVal
  | str : String → JVal
  | arr : List JVal → JVal
  | obj : List (String × JVal) → JVal

/-- CPython exception classes that the modelled code can raise.
The spec's taxonomy maps onto these: `MalformedScheduleError` covers the
shape errors `attributeError`/`typeError`/`keyError`, and `InvalidDateError`
is `valueError` raised by `strptime` (`json.JSONDecodeError` is also a
`ValueError`). -/
inductive PyError where
  | attributeError : PyError
  | typeError : PyError
  | keyError : String → PyError
  | valueError : PyError
  | overflowError : PyError
deriving DecidableEq, Repr

/-- The spec's `MalformedScheduleError` category: shape errors. -/
def MalformedScheduleError (e : PyError) : Prop :=
  e = .attributeError ∨ e = .typeError ∨ ∃ k, e = .keyError k

/-- The spec's `InvalidDateError` category: `ValueError` from date parsing. -/
def InvalidDateError (e : PyError) : Prop := e = .valueError

/-- `v.get(k, d)` on a decoded value: only dicts have `.get`;
anything else raises `AttributeError`. -/
def pyGet (v : JVal) (k : String) (d : JVal) : Except PyError JVal :=
  match v with
  | .obj kvs => .ok ((kvs.lookup k).getD d)
  | _ => .error .attributeError

/-- `v[k]` with a string key: dicts raise `KeyError` when the key is absent;
lists and strings reject string indices with `TypeError`; other values are
not subscriptable (`TypeError`). -/
def pySubscript (v : JVal) (k : String) : Except PyError JVal :=
  match v with
  | .obj kvs =>
    match kvs.lookup k with
    | some w => .ok w
    | none => .error (.keyError k)
  | _ => .error .typeError

/-- `iter(v)`: lists yield their elements, strings their one-character
substrings, dicts their keys; other values are not iterable. -/
def pyIter (v : JVal) : Option (List JVal) :=
  match v with
  | .arr xs => some xs
  | .str s => some (s.toList.map (fun c => JVal.str (String.singleton c)))
  | .obj kvs => some (kvs.map (fun kv => JVal.str kv.1))
  | _ => none

/-- `iter(v)` as an expression raising `TypeError` on non-iterables
(the `for` statement's implicit call). -/
def pyIterE (v : JVal) : Except PyError (List JVal) :=
  match pyIter v with
  | some xs => .ok xs
  | none => .error .typeError

/-- Python truthiness of a decoded value (`if v:`). -/
def pyTruthy (v : JVal) : Bool :=
  match v with
  | .null => false
  | .bool b => b
  | .num n => n != 0
  | .str s => s != ""
  | .arr xs => !xs.isEmpty
  | .obj kvs => !kvs.isEmpty

/-- Two-digit lowercase hex of a byte, for `repr`'s `\xhh` escapes. -/
def hex2 (n : Nat) : String :=
  let dig := fun k => String.singleton (Char.ofNat (if k < 10 then 48 + k else 87 + k))
  dig (n / 16 % 16) ++ dig (n % 16)

/-- One character of a Python `repr` of a string, `q` being the chosen
quote character. -/
def pyEscapeChar (q : Char) (c : Char) : String :=
  if c = '\\' then "\\\\"
  else if c = q then "\\" ++ String.singleton q
  else if c = '\n' then "\\n"
  else if c = '\r' then "\\r"
  else if c = '\t' then "\\t"
  else if c.toNat < 32 ∨ c.toNat = 127 then "\\x" ++ hex2 c.toNat
  else String.singleton c

/-- Python `repr` of a string: single-quoted, switching to double quotes
when the string contains a single quote but no double quote (printable
non-ASCII is kept verbatim). -/
def pyReprStr (s : String) : String :=
  let q : Char := if s.contains '\x27' ∧ ¬ s.contains '"' then '"' else '\x27'
  String.singleton q ++ String.join (s.toList.map (pyEscapeChar q)) ++ String.singleton q

mutual
/-- Python `repr` of a decoded value. -/
def pyRepr : JVal → String
  | .null => "None"
  | .bool b => if b then "True" else "False"
  | .num n => toString n
  | .str s => pyReprStr s
  | .arr xs => "[" ++ pyReprArr xs ++ "]"
  | .obj kvs => "\x7b" ++ pyReprObj kvs ++ "\x7d"

/-- Comma-joined `repr`s of list elements. -/
def pyReprArr : List JVal → String
  | [] => ""
  | [x] => pyRepr x
  | x :: xs => pyRepr x ++ ", " ++ pyReprArr xs

/-- Comma-joined `key: value` `repr`s of dict items. -/
def pyReprObj : List (String × JVal) → String
  | [] => ""
  | [kv] => pyReprStr kv.1 ++ ": " ++ pyRepr kv.2
  | kv :: kvs => pyReprStr kv.1 ++ ": " ++ pyRepr kv.2 ++ ", " ++ pyReprObj kvs
end

/-- Python `str(v)` / f-string interpolation of a decoded value
(`str` is the identity on strings, `repr` elsewhere). -/
def pyStr (v : JVal) : String :=
  match v with
  | .str s => s
  | v => pyRepr v

/-- ASCII decimal digit. -/
def isDig (c : Char) : Bool := '0' ≤ c && c ≤ '9'

/-- Value of an ASCII digit. -/
def digVal (c : Char) : Nat := c.toNat - 48

/-- Decimal value of a digit run. -/
def digitsToNat (cs : List Char) : Nat :=
  cs.foldl (fun a c => a * 10 + digVal c) 0

/-- Gregorian leap year (CPython `datetime._is_leap`). -/
def isLeap (y : Nat) : Bool := y % 4 == 0 && (y % 100 != 0 || y % 400 == 0)

/-- Days in a month (CPython `datetime._days_in_month`). -/
def daysInMonth (y m : Nat) : Nat :=
  if m = 2 then (if isLeap y then 29 else 28)
  else if m = 4 ∨ m = 6 ∨ m = 9 ∨ m = 11 then 30
  else 31

/-- A calendar date as carried by a CPython `datetime` at midnight. -/
structure Date where
  year : Nat
  month : Nat
  day : Nat
deriving DecidableEq, Repr

/-- Days before January 1 of `y` (CPython `datetime._days_before_year`);
the Nat subtraction never truncates since `p / 4 ≥ p / 100`. -/
def daysBeforeYear (y : Nat) : Nat :=
  let p := y - 1
  p * 365 + p / 4 - p / 100 + p / 400

/-- Days in `y` before the first of month `m`
(CPython `datetime._days_before_month`). -/
def daysBeforeMonth (y m : Nat) : Nat :=
  ((List.range (m - 1)).map (fun i => daysInMonth y (i + 1))).sum

/-- Proleptic-Gregorian ordinal (CPython `date.toordinal`, 0001-01-01 = 1). -/
def Date.toOrdinal (d : Date) : Nat :=
  daysBeforeYear d.year + daysBeforeMonth d.year d.month + d.day

/-- CPython `datetime._MAXORDINAL`, the ordinal of 9999-12-31. -/
def maxOrdinal : Nat := 3652059

/-- Core of `datetime.strptime(s, '%Y-%m-%d')` on the character list of `s`,
after CPython `_strptime`: exactly four year digits, a dash, a one-or-two
digit month in 1..12, a dash, a one-or-two digit day in 1..31, end of
string; then `datetime(year, month, day)` validation (year >= 1 and the day
fits the month).  `none` models the raised `ValueError`. -/
def strptimeCore (cs : List Char) : Option Date :=
  match cs with
  | y1 :: y2 :: y3 :: y4 :: h1 :: rest =>
    if h1 = '-' ∧ isDig y1 = true ∧ isDig y2 = true ∧ isDig y3 = true ∧ isDig y4 = true then
      let y := digitsToNat [y1, y2, y3, y4]
      let mrun := rest.takeWhile isDig
      match rest.dropWhile isDig with
      | h2 :: rest2 =>
        if h2 = '-' then
          let drun := rest2.takeWhile isDig
          if rest2.dropWhile isDig = [] ∧
              (mrun.length = 1 ∨ mrun.length = 2) ∧
              (drun.length = 1 ∨ drun.length = 2) then
            let m := digitsToNat mrun
            let d := digitsToNat drun
            if (1 ≤ m ∧ m ≤ 12) ∧ (1 ≤ d ∧ d ≤ 31) then
              if 1 ≤ y ∧ d ≤ daysInMonth y m then some ⟨y, m, d⟩ else none
            else none
          else none
        else none
      | [] => none
    else none
  | _ => none

/-- `datetime.strptime(s, '%Y-%m-%d')`, returning the parsed calendar date
or `none` for a raised `ValueError`. -/
def strptimeYmd (s : String) : Option Date := strptimeCore s.toList

/-- `datetime.strptime(v, '%Y-%m-%d')` on a decoded value: a non-string
argument raises `TypeError`, an unparsable string raises `ValueError`. -/
def pyStrptime (v : JVal) : Except PyError Date :=
  match v with
  | .str s =>
    match strptimeYmd s with
    | some d => .ok d
    | none => .error .valueError
  | _ => .error .typeError

/-- `timedelta(days=v).days` on a decoded value: integers pass through,
bools are ints (`True` = 1), anything else raises `TypeError`. -/
def pyDays (v : JVal) : Except PyError Int :=
  match v with
  | .num n => .ok n
  | .bool b => .ok (if b then 1 else 0)
  | _ => .error .typeError

/-- One timeline row, the dict appended to `tasks` in `prepare_gantt_data`
(`CriticalPath` is the `"Critical Path"` key; `Start`/`Finish` are the
ordinals of the midnight datetimes; `Section` keeps the raw
`section_name` value exactly as the source stores it). -/
structure Row where
  Task : String
  Start : Int
  Finish : Int
  CriticalPath : String
  Section : JVal

/-- Body of the inner `for task in section['tasks']` loop of
`prepare_gantt_data` (src/main.py lines 20-31), in source order:
`task['task_name']`, `task['start_date']` + `strptime`,
`task['duration_days']`, `start_date + timedelta(days=duration_days)` with
CPython's `OverflowError` bound, `task.get('is_critical', False)`, and the
appended row dict. -/
def processTask (section_name task : JVal) : Except PyError Row :=
  match pySubscript task "task_name" with
  | .error e => .error e
  | .ok task_name =>
    match pySubscript task "start_date" with
    | .error e => .error e
    | .ok sv =>
      match pyStrptime sv with
      | .error e => .error e
      | .ok start_date =>
        match pySubscript task "duration_days" with
        | .error e => .error e
        | .ok dv =>
          match pyDays dv with
          | .error e => .error e
          | .ok duration_days =>
            let startOrd : Int := (start_date.toOrdinal : Int)
            let endOrd : Int := startOrd + duration_days
            if 1 ≤ endOrd ∧ endOrd ≤ (maxOrdinal : Int) then
              match pyGet task "is_critical" (.bool false) with
              | .error e => .error e
              | .ok crit =>
                .ok { Task := pyStr task_name
                      Start := startOrd
                      Finish := endOrd
                      CriticalPath := if pyTruthy crit then "Critical" else "Non-Critical"
                      Section := section_name }
            else .error .overflowError

/-- The inner task loop over an iterated task list, accumulating rows in
order; the first raised exception aborts the whole call. -/
def processTasks (section_name : JVal) : List JVal → Except PyError (List Row)
  | [] => .ok []
  | t :: ts =>
    match processTask section_name t with
    | .error e => .error e
    | .ok r =>
      match processTasks section_name ts with
      | .error e => .error e
      | .ok rs => .ok (r :: rs)

/-- The outer `for section in data.get("sections", [])` loop
(src/main.py lines 17-31): `section['section_name']`, iteration of
`section['tasks']`, then the task loop. -/
def processSections : List JVal → Except PyError (List Row)
  | [] => .ok []
  | s :: ss =>
    match pySubscript s "section_name" with
    | .error e => .error e
    | .ok section_name =>
      match pySubscript s "tasks" with
      | .error e => .error e
      | .ok tv =>
        match pyIterE tv with
        | .error e => .error e
        | .ok ts =>
          match processTasks section_name ts with
          | .error e => .error e
          | .ok rs =>
            match processSections ss with
            | .error e => .error e
            | .ok rest => .ok (rs ++ rest)

/-- `prepare_gantt_data` (src/main.py lines 12-32) on the decoded document:
`data.get("chart_name", "Project Gantt Chart")`, then the section/task loops
over `data.get("sections", [])`, returning `(tasks, chart_name)`.  The
`Except` result models Python's exception propagation: either the complete
row list is returned or an exception escapes, never a partial list. -/
def prepare_gantt_data (data : JVal) : Except PyError (List Row × JVal) :=
  match pyGet data "chart_name" (.str "Project Gantt Chart") with
  | .error e => .error e
  | .ok chart_name =>
    match pyGet data "sections" (.arr []) with
    | .error e => .error e
    | .ok sectionsVal =>
      match pyIterE sectionsVal with
      | .error e => .error e
      | .ok secs =>
        match processSections secs with
        | .error e => .error e
        | .ok rows => .ok (rows, chart_name)

/-- The chart specification built by `create_gantt_figure`
(src/main.py lines 35-59): the `px.timeline` arguments followed by the
`update_layout` / `update_xaxes` / `update_yaxes` settings.  The `title`
keeps the raw `chart_title` value, as plotly receives it. -/
structure GanttFigure where
  data : List Row
  x_start : String
  x_end : String
  y : String
  color : String
  color_discrete_map : List (String × String)
  title : JVal
  plot_bgcolor : String
  paper_bgcolor : String
  xaxis_title : String
  yaxis_title : String
  title_x : Rat
  xaxis_tickformat : String
  height : Nat
  font_family : String
  font_color : String
  title_font_size : Nat
  title_font_family : String
  title_font_color : String
  xaxis_showgrid : Bool
  yaxis_showgrid : Bool
  yaxis_categoryorder : String

/-- `create_gantt_figure` (src/main.py lines 35-59): a pure record of the
figure configuration applied to the given rows and title. -/
def create_gantt_figure (tasks : List Row) (chart_title : JVal) : GanttFigure :=
  { data := tasks
    x_start := "Start"
    x_end := "Finish"
    y := "Task"
    color := "Critical Path"
    color_discrete_map := [("Critical", "#C81D25"), ("Non-Critical", "#3C4E66")]
    title := chart_title
    plot_bgcolor := "#F4F4F9"
    paper_bgcolor := "#F4F4F9"
    xaxis_title := "Timeline"
    yaxis_title := "Tasks"
    title_x := (1 : Rat) / 2
    xaxis_tickformat := "%Y-%m"
    height := 600
    font_family := "Arial"
    font_color := "#3C4E66"
    title_font_size := 24
    title_font_family := "Arial Black"
    title_font_color := "#3C4E66"
    xaxis_showgrid := false
    yaxis_showgrid := false
    yaxis_categoryorder := "total ascending" }

/-- One dropdown entry built by `load_json_files`: the `"file"` path and the
`"name"` display value (which the source leaves as whatever
`.get("chart_name", f)` returns). -/
structure RegistryEntry where
  file : String
  name : JVal

/-- Python `str.endswith` on strings. -/
def pyEndsWith (s suf : String) : Bool := suf.toList.isSuffixOf s.toList

/-- `load_json_files` (src/main.py lines 65-70).  The directory is modelled
by `listing` (the `os.listdir("json")` result; such names never contain a
path separator) and `fs`, mapping a path to the decoded content of that
file, or `none` when `json.load` raises (`json.JSONDecodeError`, a
`ValueError`).  The list comprehension evaluates entries left to right and
the first exception aborts the whole call. -/
def load_json_files (listing : List String) (fs : String → Option JVal) :
    Except PyError (List RegistryEntry) :=
  (listing.filter (fun f => pyEndsWith f ".json")).mapM (fun f =>
    match fs ("json/" ++ f) with
    | none => .error .valueError
    | some doc =>
      match pyGet doc "chart_name" (.str f) with
      | .error e => .error e
      | .ok name => .ok { file := "json/" ++ f, name := name })

/-- Python `str.replace(pat, rep)` on character lists: every occurrence of
a nonempty `pat` replaced, scanning left to right without overlap.  The
structural fuel only bounds the recursion; each step consumes at least one
character, so with fuel at least the list's length the fuel-exhausted
branch is never taken. -/
def replaceCore (pat rep : List Char) : Nat → List Char → List Char
  | _, [] => []
  | 0, cs => cs
  | fuel + 1, c :: rest =>
    if pat ≠ [] ∧ pat.isPrefixOf (c :: rest) then
      rep ++ replaceCore pat rep fuel (rest.drop (pat.length - 1))
    else
      c :: replaceCore pat rep fuel rest

/-- Python `str.replace` on strings. -/
def pyReplace (s pat rep : String) : String :=
  String.mk (replaceCore pat.toList rep.toList s.toList.length s.toList)

/-- `os.path.basename` on a POSIX path: the part after the last `/`. -/
def pyBasename (p : String) : String :=
  String.mk ((p.toList.reverse.takeWhile (fun c => c ≠ '/')).reverse)

/-- Truthiness of the `n_clicks` callback argument (`None` before any
click, an int afterwards). -/
def pyTruthyClicks (n : Option Int) : Bool :=
  match n with
  | none => false
  | some k => k != 0

/-- The output filename computed by `export_chart`:
`os.path.basename(json_file).replace('.json', '_gantt_chart.png')`. -/
def exportFilename (json_file : String) : String :=
  pyReplace (pyBasename json_file) ".json" "_gantt_chart.png"

/-- `export_chart` (src/main.py lines 160-167).  `doc` is the decoded
content of `json_file` (read inside `prepare_gantt_data`).  The result
models (status message, written image): `pio.write_image(fig, name)` is
recorded as `some (name, fig)`; with a falsy `n_clicks` nothing is written
and the empty status is returned.  An exception from the parser propagates
out of the callback. -/
def export_chart (n_clicks : Option Int) (json_file : String) (doc : JVal) :
    Except PyError (String × Option (String × GanttFigure)) :=
  if pyTruthyClicks n_clicks then
    match prepare_gantt_data doc with
    | .error e => .error e
    | .ok (tasks, chart_name) =>
      let fig := create_gantt_figure tasks chart_name
      let output_filename := exportFilename json_file
      .ok ("Gantt chart exported as \x27" ++ output_filename ++ "\x27",
           some (output_filename, fig))
  else .ok ("", none)

/-- Whether a decoded value is a dict. -/
def JVal.isObj : JVal → Bool
  | .obj _ => true
  | _ => false

/-- Key lookup on a decoded value, `none` when the value is not a dict or
lacks the key (the pure counterpart of `pyGet`/`pySubscript`). -/
def jGet (v : JVal) (k : String) : Option JVal :=
  match v with
  | .obj kvs => kvs.lookup k
  | _ => none

/-- A task object the parser accepts without raising: a dict with a
`task_name`, a `start_date` string accepted by `strptime('%Y-%m-%d')`, and
an integer `duration_days` whose resulting end ordinal stays inside
CPython's representable date range. -/
def validTaskB (t : JVal) : Bool :=
  (jGet t "task_name").isSome &&
  (match jGet t "start_date" with
   | some (.str s) =>
     match strptimeYmd s with
     | some d =>
       (match jGet t "duration_days" with
        | some (.num n) =>
          decide (1 ≤ (d.toOrdinal : Int) + n ∧ (d.toOrdinal : Int) + n ≤ (maxOrdinal : Int))
        | _ => false)
     | none => false
   | _ => false)

/-- A section object of a valid schedule: a dict with a `section_name` and
a `tasks` array of valid tasks. -/
def validSectionB (s : JVal) : Bool :=
  (jGet s "section_name").isSome &&
  (match jGet s "tasks" with
   | some (.arr ts) => ts.all validTaskB
   | _ => false)

/-- A valid schedule document: a dict whose `sections` key holds an array
of valid sections (`chart_name` remains optional). -/
def validDocB (data : JVal) : Bool :=
  data.isObj &&
  (match jGet data "sections" with
   | some (.arr ss) => ss.all validSectionB
   | _ => false)

/-- The `tasks` array of a section (empty when absent or not an array). -/
def sectionTasks (s : JVal) : List JVal :=
  match jGet s "tasks" with
  | some (.arr ts) => ts
  | _ => []

/-- The `section_name` value of a section. -/
def sectionNameOf (s : JVal) : JVal := (jGet s "section_name").getD .null

/-- The `sections` array of a document (empty when absent or not an array). -/
def docSections (data : JVal) : List JVal :=
  match jGet data "sections" with
  | some (.arr ss) => ss
  | _ => []

/-- The task's `duration_days` integer. -/
def taskDur (t : JVal) : Int :=
  match jGet t "duration_days" with
  | some (.num n) => n
  | _ => 0

/-- The ordinal of the task's parsed `start_date`. -/
def taskStartOrd (t : JVal) : Int :=
  match jGet t "start_date" with
  | some (.str s) =>
    match strptimeYmd s with
    | some d => (d.toOrdinal : Int)
    | none => 0
  | _ => 0

/-- The timeline row a valid task flattens to: the finish ordinal is the
start ordinal plus `duration_days`, criticality is the truthiness of the
optional `is_critical` value, and the owning section's name is carried
along. -/
def taskRow (section_name t : JVal) : Row :=
  { Task := pyStr ((jGet t "task_name").getD .null)
    Start := taskStartOrd t
    Finish := taskStartOrd t + taskDur t
    CriticalPath :=
      if pyTruthy ((jGet t "is_critical").getD (.bool false)) then "Critical" else "Non-Critical"
    Section := section_name }

/-- The row list of a document: sections in order of appearance, and within
each section its tasks in order of appearance. -/
def specRows (data : JVal) : List Row :=
  (docSections data).flatMap (fun s => (sectionTasks s).map (taskRow (sectionNameOf s)))

/-- The chart title of a document: its `chart_name` value, defaulting to
the fixed placeholder. -/
def specTitle (data : JVal) : JVal :=
  (jGet data "chart_name").getD (.str "Project Gantt Chart")

/-- Total number of tasks across all sections of a document. -/
def totalTasks (data : JVal) : Nat :=
  ((docSections data).map (fun s => (sectionTasks s).length)).sum

/-- Modelled from the spec's words, for comparison with `strptimeCore`:
a string in the fixed calendar format `YYYY-MM-DD` — four year digits,
two month digits, two day digits, dash separators — denoting a valid
calendar date, together with that date. -/
def specFormatCore : List Char → Option Date
  | y1 :: y2 :: y3 :: y4 :: h1 :: m1 :: m2 :: h2 :: d1 :: d2 :: rest =>
    let y := digitsToNat [y1, y2, y3, y4]
    let m := digitsToNat [m1, m2]
    let d := digitsToNat [d1, d2]
    if rest = [] ∧ h1 = '-' ∧ h2 = '-' ∧
        isDig y1 = true ∧ isDig y2 = true ∧ isDig y3 = true ∧ isDig y4 = true ∧
        isDig m1 = true ∧ isDig m2 = true ∧ isDig d1 = true ∧ isDig d2 = true ∧
        1 ≤ y ∧ 1 ≤ m ∧ m ≤ 12 ∧ 1 ≤ d ∧ d ≤ daysInMonth y m
    then some ⟨y, m, d⟩ else none
  | _ => none

/-- The spec's `YYYY-MM-DD` format on strings. -/
def specFormatYYYYMMDD (s : String) : Option Date := specFormatCore s.toList

/-- A minimal one-section, one-task schedule document with the given
`start_date` string (used to exercise date handling through the parser). -/
def mkDateDoc (s : String) : JVal :=
  .obj [("sections", .arr [
    .obj [("section_name", .str "S"),
          ("tasks", .arr [
            .obj [("task_name", .str "T"),
                  ("start_date", .str s),
                  ("duration_days", .num 1)]])]])]

/-- The task of the spec's worked scenario. -/
def designTask : JVal :=
  .obj [("task_name", .str "Design"),
        ("start_date", .str "2024-01-01"),
        ("duration_days", .num 5),
        ("is_critical", .bool true)]

/-- The section of the spec's worked scenario. -/
def prepSection : JVal :=
  .obj [("section_name", .str "Prep"), ("tasks", .arr [designTask])]

/-- The schedule document of the spec's worked scenario. -/
def launchDoc : JVal :=
  .obj [("chart_name", .str "Launch"), ("sections", .arr [prepSection])]

/-- A task whose `is_critical` is the (truthy, non-boolean) number 2. -/
def critTask : JVal :=
  .obj [("task_name", .str "T"),
        ("start_date", .str "2024-01-01"),
        ("duration_days", .num 1),
        ("is_critical", .num 2)]

/-- A one-task document carrying `critTask`. -/
def critDoc : JVal :=
  .obj [("sections", .arr [
    .obj [("section_name", .str "S"), ("tasks", .arr [critTask])]])]

/-- A task with no `is_critical` key (the one inside `mkDateDoc`). -/
def sampleTask : JVal :=
  .obj [("task_name", .str "T"),
        ("start_date", .str "2024-01-01"),
        ("duration_days", .num 1)]

/-- The row `critDoc` flattens to. -/
def critRow : Row :=
  { Task := "T"
    Start := ((Date.mk 2024 1 1).toOrdinal : Int)
    Finish := ((Date.mk 2024 1 2).toOrdinal : Int)
    CriticalPath := "Critical"
    Section := .str "S" }

/-- A well-shaped document whose (negative) duration drives the end date
below the representable range: `2024-01-01` minus 1000000 days. -/
def overflowDoc : JVal :=
  .obj [("sections", .arr [
    .obj [("section_name", .str "S"),
          ("tasks", .arr [
            .obj [("task_name", .str "T"),
                  ("start_date", .str "2024-01-01"),
                  ("duration_days", .num (-1000000))]])]])]

/-- The directory contents for the registry example: `good.json` decodes to
a schedule with a chart name, `bad.json` is not valid JSON, so `json.load`
raises on it. -/
def exampleFs (p : String) : Option JVal :=
  if p = "json/good.json" then
    some (.obj [("chart_name", .str "Good Chart"), ("sections", .arr [])])
  else none

/-- A directory with a single decodable schedule file that lacks a
`chart_name` key. -/
def nonameFs (p : String) : Option JVal :=
  if p = "json/noname.json" then some (.obj [("sections", .arr [])]) else none

/-- The shape error the section loop raises at a section element before any
of its tasks is processed: a failing `section['section_name']` access, a
failing `section['tasks']` access, or a non-iterable `tasks` value. -/
def sectionShapeError (s : JVal) : Option PyError :=
  match pySubscript s "section_name" with
  | .error e => some e
  | .ok _ =>
    match pySubscript s "tasks" with
    | .error e => some e
    | .ok tv =>
      match pyIter tv with
      | none => some .typeError
      | some _ => none

/-- A well-formed section with no tasks. -/
def emptySection : JVal := .obj [("section_name", .str "A"), ("tasks", .arr [])]

/-- A document whose second section lacks the `tasks` key. -/
def docMissingTasks : JVal :=
  .obj [("sections", .arr [emptySection, .obj [("section_name", .str "B")]])]

/-- A document whose single section has a non-iterable `tasks` value. -/
def docBadTasks : JVal :=
  .obj [("sections", .arr [.obj [("section_name", .str "B"), ("tasks", .num 5)]])]

/-! ## Helper lemmas (shared by the claim theorems below) -/

theorem processTask_ok_of_valid (sn t : JVal) (h : validTaskB t = true) :
    processTask sn t = .ok (taskRow sn t) := by
  rw [validTaskB, Bool.and_eq_true] at h
  obtain ⟨h1, h2⟩ := h
  cases t with
  | null => simp [jGet] at h1
  | bool b => simp [jGet] at h1
  | num n => simp [jGet] at h1
  | str s => simp [jGet] at h1
  | arr xs => simp [jGet] at h1
  | obj kvs =>
    simp only [jGet] at h1 h2
    obtain ⟨tn, hn⟩ := Option.isSome_iff_exists.mp h1
    split at h2
    case _ s heq =>
      split at h2
      case _ d heq2 =>
        split at h2
        case _ n heq3 =>
          rw [decide_eq_true_eq] at h2
          simp [processTask, pySubscript, pyStrptime, pyDays, pyGet, hn, heq, heq2, heq3, h2,
                taskRow, taskStartOrd, taskDur, jGet]
        case _ => simp at h2
      case _ => simp at h2
    case _ => simp at h2

theorem processTasks_ok_of_valid (sn : JVal) (ts : List JVal) (h : ts.all validTaskB = true) :
    processTasks sn ts = .ok (ts.map (taskRow sn)) := by
  induction ts with
  | nil => rfl
  | cons t ts ih =>
    rw [List.all_cons, Bool.and_eq_true] at h
    obtain ⟨h1, h2⟩ := h
    simp [processTasks, processTask_ok_of_valid sn t h1, ih h2]

theorem processSections_ok_of_valid (ss : List JVal) (h : ss.all validSectionB = true) :
    processSections ss =
      .ok (ss.flatMap (fun s => (sectionTasks s).map (taskRow (sectionNameOf s)))) := by
  induction ss with
  | nil => rfl
  | cons s ss ih =>
    rw [List.all_cons, Bool.and_eq_true] at h
    obtain ⟨h1, h2⟩ := h
    rw [validSectionB, Bool.and_eq_true] at h1
    obtain ⟨hn, ht⟩ := h1
    cases s with
    | null => simp [jGet] at hn
    | bool b => simp [jGet] at hn
    | num n => simp [jGet] at hn
    | str s => simp [jGet] at hn
    | arr xs => simp [jGet] at hn
    | obj kvs =>
      simp only [jGet] at hn ht
      obtain ⟨nm, hnm⟩ := Option.isSome_iff_exists.mp hn
      split at ht
      case _ ts heq =>
        simp [processSections, pySubscript, hnm, heq, pyIterE, pyIter,
              processTasks_ok_of_valid _ _ ht, ih h2, sectionTasks, sectionNameOf, jGet]
      case _ => simp at ht

theorem prepare_eq_spec (data : JVal) (h : validDocB data = true) :
    prepare_gantt_data data = .ok (specRows data, specTitle data) := by
  rw [validDocB, Bool.and_eq_true] at h
  obtain ⟨ho, hs⟩ := h
  cases data with
  | null => simp [JVal.isObj] at ho
  | bool b => simp [JVal.isObj] at ho
  | num n => simp [JVal.isObj] at ho
  | str s => simp [JVal.isObj] at ho
  | arr xs => simp [JVal.isObj] at ho
  | obj kvs =>
    simp only [jGet] at hs
    split at hs
    case _ ss heq =>
      simp [prepare_gantt_data, pyGet, heq, pyIterE, pyIter,
            processSections_ok_of_valid _ hs, specRows, docSections, jGet, specTitle]
    case _ => simp at hs

theorem processTasks_mem (sn : JVal) (ts : List JVal) (rs : List Row) (r : Row)
    (h : processTasks sn ts = .ok rs) (hr : r ∈ rs) :
    ∃ t ∈ ts, processTask sn t = .ok r := by
  induction ts generalizing rs with
  | nil =>
    simp only [processTasks, Except.ok.injEq] at h
    subst h
    simp at hr
  | cons t ts ih =>
    simp only [processTasks] at h
    split at h
    · exact absurd h (by simp)
    case _ r1 heq =>
      split at h
      · exact absurd h (by simp)
      case _ rs' heq2 =>
        rw [Except.ok.injEq] at h
        subst h
        rcases List.mem_cons.mp hr with hr1 | hr2
        · exact ⟨t, List.mem_cons_self t ts, hr1 ▸ heq⟩
        · obtain ⟨t', ht', hpt⟩ := ih rs' heq2 hr2
          exact ⟨t', List.mem_cons_of_mem t ht', hpt⟩

theorem processSections_mem (ss : List JVal) (rs : List Row) (r : Row)
    (h : processSections ss = .ok rs) (hr : r ∈ rs) :
    ∃ sn t, processTask sn t = .ok r := by
  induction ss generalizing rs with
  | nil =>
    simp only [processSections, Except.ok.injEq] at h
    subst h
    simp at hr
  | cons s ss ih =>
    simp only [processSections] at h
    split at h
    · exact absurd h (by simp)
    case _ sn heq1 =>
      split at h
      · exact absurd h (by simp)
      case _ tv heq2 =>
        split at h
        · exact absurd h (by simp)
        case _ ts heq3 =>
          split at h
          · exact absurd h (by simp)
          case _ rsec heq4 =>
            split at h
            · exact absurd h (by simp)
            case _ rest heq5 =>
              rw [Except.ok.injEq] at h
              subst h
              rcases List.mem_append.mp hr with hr1 | hr2
              · obtain ⟨t, _, hpt⟩ := processTasks_mem sn ts rsec r heq4 hr1
                exact ⟨sn, t, hpt⟩
              · exact ih rest heq5 hr2

theorem prepare_mem (data : JVal) (rows : List Row) (title : JVal) (r : Row)
    (h : prepare_gantt_data data = .ok (rows, title)) (hr : r ∈ rows) :
    ∃ sn t, processTask sn t = .ok r := by
  simp only [prepare_gantt_data] at h
  split at h
  · exact absurd h (by simp)
  case _ cn heq1 =>
    split at h
    · exact absurd h (by simp)
    case _ sv heq2 =>
      split at h
      · exact absurd h (by simp)
      case _ secs heq3 =>
        split at h
        · exact absurd h (by simp)
        case _ rs heq4 =>
          rw [Except.ok.injEq, Prod.mk.injEq] at h
          obtain ⟨h5, _⟩ := h
          exact processSections_mem secs _ r heq4 (h5 ▸ hr)

theorem processTask_critical (sn t : JVal) (r : Row)
    (h : processTask sn t = .ok r) :
    r.CriticalPath =
      if pyTruthy ((jGet t "is_critical").getD (.bool false)) then "Critical"
      else "Non-Critical" := by
  cases t with
  | null => simp [processTask, pySubscript] at h
  | bool b => simp [processTask, pySubscript] at h
  | num n => simp [processTask, pySubscript] at h
  | str s => simp [processTask, pySubscript] at h
  | arr xs => simp [processTask, pySubscript] at h
  | obj kvs =>
    simp only [processTask] at h
    split at h
    · exact absurd h (by simp)
    case _ tn heq1 =>
      split at h
      · exact absurd h (by simp)
      case _ sv heq2 =>
        split at h
        · exact absurd h (by simp)
        case _ sd heq3 =>
          split at h
          · exact absurd h (by simp)
          case _ dv heq4 =>
            split at h
            · exact absurd h (by simp)
            case _ dn heq5 =>
              split at h
              case isTrue hrange =>
                split at h
                · exact absurd h (by simp)
                case _ crit heq6 =>
                  rw [Except.ok.injEq] at h
                  subst h
                  simp only [pyGet, Except.ok.injEq] at heq6
                  simp [jGet, heq6]
              case isFalse => exact absurd h (by simp)

theorem daysInMonth_le_31 (y m : Nat) : daysInMonth y m ≤ 31 := by
  rw [daysInMonth]
  split
  · split <;> omega
  · split <;> omega

theorem strptimeCore_of_specFormat (cs : List Char) (d : Date)
    (h : specFormatCore cs = some d) : strptimeCore cs = some d := by
  rcases cs with _ | ⟨a1, _ | ⟨a2, _ | ⟨a3, _ | ⟨a4, _ | ⟨s1, _ | ⟨b1, _ | ⟨b2, _ | ⟨s2, _ | ⟨c1, _ | ⟨c2, rest⟩⟩⟩⟩⟩⟩⟩⟩⟩⟩
  case nil => simp [specFormatCore] at h
  case cons.nil => simp [specFormatCore] at h
  case cons.cons.nil => simp [specFormatCore] at h
  case cons.cons.cons.nil => simp [specFormatCore] at h
  case cons.cons.cons.cons.nil => simp [specFormatCore] at h
  case cons.cons.cons.cons.cons.nil => simp [specFormatCore] at h
  case cons.cons.cons.cons.cons.cons.nil => simp [specFormatCore] at h
  case cons.cons.cons.cons.cons.cons.cons.nil => simp [specFormatCore] at h
  case cons.cons.cons.cons.cons.cons.cons.cons.nil => simp [specFormatCore] at h
  case cons.cons.cons.cons.cons.cons.cons.cons.cons.nil => simp [specFormatCore] at h
  simp only [specFormatCore] at h
  split at h
  case isTrue hc =>
    obtain ⟨hrest, e1, e2, ha1, ha2, ha3, ha4, hb1, hb2, hc1, hc2, hy, hm1, hm2, hd1, hd2⟩ := hc
    rw [Option.some.injEq] at h
    subst hrest
    subst e1
    subst e2
    have hdash : isDig '-' = false := by decide
    simp only [strptimeCore]
    rw [if_pos ⟨trivial, ha1, ha2, ha3, ha4⟩]
    simp only [List.takeWhile, List.dropWhile, hb1, hb2, hc1, hc2, hdash]
    rw [if_pos trivial]
    rw [if_pos ⟨trivial, Or.inr rfl, Or.inr rfl⟩]
    rw [if_pos ⟨⟨hm1, hm2⟩, ⟨hd1, le_trans hd2 (daysInMonth_le_31 _ _)⟩⟩]
    rw [if_pos ⟨hy, hd2⟩]
    exact h ▸ rfl
  case isFalse => exact absurd h (by simp)

theorem mkDateDoc_fails (s : String) (h : strptimeYmd s = none) :
    prepare_gantt_data (mkDateDoc s) = .error .valueError := by
  simp [mkDateDoc, prepare_gantt_data, pyGet, processSections, processTasks, processTask,
        pySubscript, pyIterE, pyIter, pyStrptime, List.lookup, h]

theorem pySubscript_error (v : JVal) (k : String) (e : PyError)
    (h : pySubscript v k = .error e) : MalformedScheduleError e := by
  cases v with
  | obj kvs =>
    simp only [pySubscript] at h
    split at h
    · exact absurd h (by simp)
    · rw [Except.error.injEq] at h
      exact Or.inr (Or.inr ⟨k, h.symm⟩)
  | null => simp only [pySubscript, Except.error.injEq] at h; exact Or.inr (Or.inl h.symm)
  | bool b => simp only [pySubscript, Except.error.injEq] at h; exact Or.inr (Or.inl h.symm)
  | num n => simp only [pySubscript, Except.error.injEq] at h; exact Or.inr (Or.inl h.symm)
  | str s => simp only [pySubscript, Except.error.injEq] at h; exact Or.inr (Or.inl h.symm)
  | arr xs => simp only [pySubscript, Except.error.injEq] at h; exact Or.inr (Or.inl h.symm)

theorem sectionShapeError_malformed (s : JVal) (e : PyError)
    (h : sectionShapeError s = some e) : MalformedScheduleError e := by
  simp only [sectionShapeError] at h
  split at h
  case _ e1 heq1 =>
    rw [Option.some.injEq] at h
    exact h ▸ pySubscript_error s "section_name" e1 heq1
  case _ nm heq1 =>
    split at h
    case _ e2 heq2 =>
      rw [Option.some.injEq] at h
      exact h ▸ pySubscript_error s "tasks" e2 heq2
    case _ tv heq2 =>
      split at h
      case _ heq3 =>
        rw [Option.some.injEq] at h
        exact h ▸ Or.inr (Or.inl rfl)
      case _ l heq3 => exact absurd h (by simp)

theorem processSections_append_error (bad : JVal) (rest : List JVal) (e : PyError)
    (hb : sectionShapeError bad = some e) :
    ∀ good : List JVal, good.all validSectionB = true →
      processSections (good ++ bad :: rest) = .error e := by
  intro good
  induction good with
  | nil =>
    intro _
    simp only [List.nil_append]
    simp only [sectionShapeError] at hb
    split at hb
    case _ e1 heq1 =>
      rw [Option.some.injEq] at hb
      subst hb
      simp [processSections, heq1]
    case _ nm heq1 =>
      split at hb
      case _ e2 heq2 =>
        rw [Option.some.injEq] at hb
        subst hb
        simp [processSections, heq1, heq2]
      case _ tv heq2 =>
        split at hb
        case _ heq3 =>
          rw [Option.some.injEq] at hb
          subst hb
          simp [processSections, heq1, heq2, pyIterE, heq3]
        case _ l heq3 => exact absurd hb (by simp)
  | cons s good ih =>
    intro h
    rw [List.all_cons, Bool.and_eq_true] at h
    obtain ⟨h1, h2⟩ := h
    rw [validSectionB, Bool.and_eq_true] at h1
    obtain ⟨hn, ht⟩ := h1
    cases s with
    | obj kvs =>
      simp only [jGet] at hn ht
      obtain ⟨nm, hnm⟩ := Option.isSome_iff_exists.mp hn
      split at ht
      case _ ts heq =>
        simp [List.cons_append, processSections, pySubscript, hnm, heq, pyIterE, pyIter,
              processTasks_ok_of_valid _ _ ht, ih h2]
      case _ => simp at ht
    | null => simp [jGet] at hn
    | bool b => simp [jGet] at hn
    | num n => simp [jGet] at hn
    | str s => simp [jGet] at hn
    | arr xs => simp [jGet] at hn

/-! ## Claim theorems -/

/-- C1 (amended): for every well-shaped schedule document whose computed end
ordinals stay within CPython's representable date range (years 1..9999), the
parser succeeds, the number of rows equals the total number of tasks across
all sections, and each row's end date equals its start date plus
`duration_days` calendar days; zero and in-range negative durations are
accepted without rejection. -/
theorem claim_C1 (data : JVal) (h : validDocB data = true) :
    prepare_gantt_data data = .ok (specRows data, specTitle data) ∧
    (specRows data).length = totalTasks data ∧
    ∀ sec ∈ docSections data, ∀ t ∈ sectionTasks sec,
      (taskRow (sectionNameOf sec) t).Finish =
        (taskRow (sectionNameOf sec) t).Start + taskDur t := by
  refine ⟨prepare_eq_spec data h, ?_, ?_⟩
  · simp only [specRows, totalTasks, List.length_flatMap]
    congr 1
    congr 1
    funext s
    simp [Function.comp]
  · intro sec _ t _
    rfl

/-- C1 witness: the worked scenario document satisfies the hypothesis and
the conclusion, instantiated at its section and task. -/
theorem claim_C1_witness :
    validDocB launchDoc = true ∧
    prepare_gantt_data launchDoc = .ok (specRows launchDoc, specTitle launchDoc) ∧
    (specRows launchDoc).length = totalTasks launchDoc ∧
    (taskRow (sectionNameOf prepSection) designTask).Finish =
      (taskRow (sectionNameOf prepSection) designTask).Start + taskDur designTask :=
  ⟨rfl, (claim_C1 launchDoc rfl).1, (claim_C1 launchDoc rfl).2.1,
   (claim_C1 launchDoc rfl).2.2 prepSection (List.mem_singleton.mpr rfl)
     designTask (List.mem_singleton.mpr rfl)⟩

/-- C1 counterexample: a well-shaped document whose task has the negative
duration -1000000 is rejected (CPython raises `OverflowError` because the
end date falls before year 1), refuting the claim that every integer
`duration_days`, negative values included, is accepted without rejection. -/
theorem claim_C1_counterexample :
    prepare_gantt_data overflowDoc = .error .overflowError := rfl

/-- C2 (amended): the parser raises a `MalformedScheduleError`-class shape
error — and returns no partial row list — when the top level is not an
object, when a present `sections` value is not iterable, or when any
section element (at any position, all earlier sections being well-formed)
fails its `section_name` or `tasks` access or carries a non-iterable
`tasks` value; but a top-level object simply missing the `sections` key is
not an error: `data.get("sections", [])` defaults it and the parse
succeeds with an empty row list. -/
theorem claim_C2 (data : JVal) :
    (data.isObj = false →
      prepare_gantt_data data = .error .attributeError ∧
      MalformedScheduleError .attributeError) ∧
    (∀ kvs, data = .obj kvs → kvs.lookup "sections" = none →
      prepare_gantt_data data = .ok ([], specTitle data)) ∧
    (∀ kvs v, data = .obj kvs → kvs.lookup "sections" = some v → pyIter v = none →
      prepare_gantt_data data = .error .typeError ∧ MalformedScheduleError .typeError) ∧
    (∀ kvs v good bad rest e, data = .obj kvs → kvs.lookup "sections" = some v →
      pyIter v = some (good ++ bad :: rest) → good.all validSectionB = true →
      sectionShapeError bad = some e →
      prepare_gantt_data data = .error e ∧ MalformedScheduleError e) := by
  refine ⟨?_, ?_, ?_, ?_⟩
  · intro ho
    refine ⟨?_, Or.inl rfl⟩
    cases data with
    | obj kvs => simp [JVal.isObj] at ho
    | null => rfl
    | bool b => rfl
    | num n => rfl
    | str s => rfl
    | arr xs => rfl
  · intro kvs hd hs
    subst hd
    simp [prepare_gantt_data, pyGet, hs, pyIterE, pyIter, processSections, specTitle, jGet]
  · intro kvs v hd hs hv
    subst hd
    refine ⟨?_, Or.inr (Or.inl rfl)⟩
    simp [prepare_gantt_data, pyGet, hs, pyIterE, hv]
  · intro kvs v good bad rest e hd hs hv hgood hb
    subst hd
    refine ⟨?_, sectionShapeError_malformed bad e hb⟩
    simp [prepare_gantt_data, pyGet, hs, pyIterE, hv,
          processSections_append_error bad rest e hb good hgood]

/-- C2 witness: one concrete instance of each clause of the amended claim,
including a malformed section at a later position (missing `tasks` →
`KeyError`), and a non-iterable `tasks` value (`TypeError`). -/
theorem claim_C2_witness :
    (prepare_gantt_data (.arr []) = .error .attributeError ∧
     MalformedScheduleError .attributeError) ∧
    prepare_gantt_data (.obj [("chart_name", .str "X")]) =
      .ok ([], specTitle (.obj [("chart_name", .str "X")])) ∧
    (prepare_gantt_data (.obj [("sections", .num 3)]) = .error .typeError ∧
     MalformedScheduleError .typeError) ∧
    (prepare_gantt_data (.obj [("sections", .arr [.num 7])]) = .error .typeError ∧
     MalformedScheduleError .typeError) ∧
    (prepare_gantt_data docMissingTasks = .error (.keyError "tasks") ∧
     MalformedScheduleError (.keyError "tasks")) ∧
    (prepare_gantt_data docBadTasks = .error .typeError ∧
     MalformedScheduleError .typeError) :=
  ⟨(claim_C2 (.arr [])).1 rfl,
   (claim_C2 (.obj [("chart_name", .str "X")])).2.1 _ rfl rfl,
   (claim_C2 (.obj [("sections", .num 3)])).2.2.1 _ (.num 3) rfl rfl rfl,
   (claim_C2 (.obj [("sections", .arr [.num 7])])).2.2.2 _ (.arr [.num 7]) [] (.num 7) []
     .typeError rfl rfl rfl rfl rfl,
   (claim_C2 docMissingTasks).2.2.2 _ (.arr [emptySection, .obj [("section_name", .str "B")]])
     [emptySection] (.obj [("section_name", .str "B")]) [] (.keyError "tasks")
     rfl rfl rfl rfl rfl,
   (claim_C2 docBadTasks).2.2.2 _ (.arr [.obj [("section_name", .str "B"), ("tasks", .num 5)]])
     [] (.obj [("section_name", .str "B"), ("tasks", .num 5)]) [] .typeError
     rfl rfl rfl rfl rfl⟩

/-- C2 counterexample: the empty object has no sequence of sections at all,
yet the parser succeeds with an empty row list and the default title instead
of failing with a `MalformedScheduleError`. -/
theorem claim_C2_counterexample :
    prepare_gantt_data (.obj []) = .ok ([], .str "Project Gantt Chart") := rfl

/-- C3 (amended): a `start_date` string in strict `YYYY-MM-DD` format
denoting a valid calendar date is always parsed to exactly that date, and a
string rejected by `strptime('%Y-%m-%d')` makes the parser fail with an
`InvalidDateError` (`ValueError`); but `strptime` also accepts unpadded
one-digit month/day fields, so not every string outside the strict format
fails. -/
theorem claim_C3 (s : String) :
    (∀ d, specFormatYYYYMMDD s = some d → strptimeYmd s = some d) ∧
    (strptimeYmd s = none →
      prepare_gantt_data (mkDateDoc s) = .error .valueError ∧
      InvalidDateError .valueError) := by
  constructor
  · intro d h
    exact strptimeCore_of_specFormat s.toList d h
  · intro h
    exact ⟨mkDateDoc_fails s h, rfl⟩

/-- C3 witness: a strict-format date parses to the corresponding date, and
the spec's wrong-format example `"01-01-2024"` fails with `InvalidDateError`. -/
theorem claim_C3_witness :
    specFormatYYYYMMDD "2024-03-09" = some ⟨2024, 3, 9⟩ ∧
    strptimeYmd "2024-03-09" = some ⟨2024, 3, 9⟩ ∧
    strptimeYmd "01-01-2024" = none ∧
    prepare_gantt_data (mkDateDoc "01-01-2024") = .error .valueError ∧
    InvalidDateError .valueError :=
  ⟨rfl, (claim_C3 "2024-03-09").1 ⟨2024, 3, 9⟩ rfl, rfl,
   ((claim_C3 "01-01-2024").2 rfl).1, ((claim_C3 "01-01-2024").2 rfl).2⟩

/-- C3 counterexample: `"2024-1-5"` does not match the fixed calendar format
`YYYY-MM-DD`, yet the parser succeeds (CPython's `%m`/`%d` also accept
one-digit fields), refuting the claim that every non-matching string fails
with `InvalidDateError`. -/
theorem claim_C3_counterexample :
    specFormatYYYYMMDD "2024-1-5" = none ∧
    strptimeYmd "2024-1-5" = some ⟨2024, 1, 5⟩ ∧
    prepare_gantt_data (mkDateDoc "2024-1-5") =
      .ok ([{ Task := "T", Start := ((Date.mk 2024 1 5).toOrdinal : Int),
              Finish := ((Date.mk 2024 1 5).toOrdinal : Int) + 1,
              CriticalPath := "Non-Critical", Section := .str "S" }],
           .str "Project Gantt Chart") :=
  ⟨rfl, rfl, rfl⟩

/-- C4 (amended): with a falsy `n_clicks` the export returns the empty
status and writes nothing; with a truthy `n_clicks` it re-runs the parser
and builder and writes the image under
`basename(json_file).replace(".json", "_gantt_chart.png")` — which equals
`<name-without-extension>_gantt_chart.png` only when `.json` occurs solely
as the final extension — reporting that filename in the status message. -/
theorem claim_C4 (n : Option Int) (file : String) (doc : JVal) :
    (pyTruthyClicks n = false → export_chart n file doc = .ok ("", none)) ∧
    (pyTruthyClicks n = true →
      ∀ rows title, prepare_gantt_data doc = .ok (rows, title) →
        export_chart n file doc =
          .ok ("Gantt chart exported as \x27" ++ exportFilename file ++ "\x27",
               some (exportFilename file, create_gantt_figure rows title))) := by
  constructor
  · intro h
    simp [export_chart, h]
  · intro h rows title hp
    simp [export_chart, h, hp]

/-- C4 witness: no click yet gives the empty status; a click on
`json/plan.json` exports `plan_gantt_chart.png` and reports it. -/
theorem claim_C4_witness :
    export_chart none "json/plan.json" (.obj []) = .ok ("", none) ∧
    export_chart (some 1) "json/plan.json" (.obj []) =
      .ok ("Gantt chart exported as \x27" ++ exportFilename "json/plan.json" ++ "\x27",
           some (exportFilename "json/plan.json",
                 create_gantt_figure [] (.str "Project Gantt Chart"))) ∧
    exportFilename "json/plan.json" = "plan_gantt_chart.png" :=
  ⟨(claim_C4 none "json/plan.json" (.obj [])).1 rfl,
   (claim_C4 (some 1) "json/plan.json" (.obj [])).2 rfl [] (.str "Project Gantt Chart") rfl,
   rfl⟩

/-- C4 counterexample: for the selectable file `json/a.json.json`,
`str.replace` rewrites every occurrence of `.json` in the basename, so the
output name is `a_gantt_chart.png_gantt_chart.png`, not the claimed
`<name-without-extension>_gantt_chart.png` = `a.json_gantt_chart.png`. -/
theorem claim_C4_counterexample :
    export_chart (some 1) "json/a.json.json" (.obj []) =
      .ok ("Gantt chart exported as \x27a_gantt_chart.png_gantt_chart.png\x27",
           some ("a_gantt_chart.png_gantt_chart.png",
                 create_gantt_figure [] (.str "Project Gantt Chart"))) ∧
    "a_gantt_chart.png_gantt_chart.png" ≠ "a.json" ++ "_gantt_chart" ++ ".png" := by
  exact ⟨rfl, by decide⟩

/-- C5: evaluation at the failing input.  A directory listing with one
undecodable file makes the whole `load_json_files` call raise
`json.JSONDecodeError` (a `ValueError`): the bad file does not appear with
a filename fallback and the listing fails entirely, contradicting the
claimed policy.  The filename fallback only exists for files that decode to
an object lacking `chart_name`, and a clean listing does succeed. -/
theorem claim_C5 :
    load_json_files ["good.json", "bad.json"] exampleFs = .error .valueError ∧
    load_json_files ["good.json"] exampleFs =
      .ok [{ file := "json/good.json", name := .str "Good Chart" }] ∧
    load_json_files ["noname.json"] nonameFs =
      .ok [{ file := "json/noname.json", name := .str "noname.json" }] :=
  ⟨rfl, rfl, rfl⟩

/-- C6: the pipeline is deterministic — the parser and the chart builder
are pure functions of their inputs (the embedding is faithful here: the
source reads no clock and no state besides the given document), so two runs
on the same input yield identical rows, title and chart specification. -/
theorem claim_C6 (data : JVal) (rows : List Row) (title : JVal) :
    prepare_gantt_data data = prepare_gantt_data data ∧
    create_gantt_figure rows title = create_gantt_figure rows title :=
  ⟨rfl, rfl⟩

/-- C7: a document without a `chart_name` key gets the fixed placeholder
title `"Project Gantt Chart"` and still parses; a task without an
`is_critical` key is labeled `"Non-Critical"`. -/
theorem claim_C7 (data : JVal) (h : validDocB data = true)
    (hn : jGet data "chart_name" = none) :
    prepare_gantt_data data = .ok (specRows data, .str "Project Gantt Chart") ∧
    ∀ sn t, jGet t "is_critical" = none →
      (taskRow sn t).CriticalPath = "Non-Critical" := by
  constructor
  · simpa [specTitle, hn] using prepare_eq_spec data h
  · intro sn t ht
    simp [taskRow, ht, pyTruthy]

/-- C7 witness: a concrete document lacking `chart_name`, whose task also
lacks `is_critical`. -/
theorem claim_C7_witness :
    validDocB (mkDateDoc "2024-01-01") = true ∧
    jGet (mkDateDoc "2024-01-01") "chart_name" = none ∧
    prepare_gantt_data (mkDateDoc "2024-01-01") =
      .ok (specRows (mkDateDoc "2024-01-01"), .str "Project Gantt Chart") ∧
    (taskRow (.str "S") sampleTask).CriticalPath = "Non-Critical" :=
  ⟨rfl, rfl, (claim_C7 (mkDateDoc "2024-01-01") rfl rfl).1,
   (claim_C7 (mkDateDoc "2024-01-01") rfl rfl).2 (.str "S") sampleTask rfl⟩

/-- C8: the spec's worked scenario — the Launch document yields exactly one
row (`Design`, 2024-01-01 .. 2024-01-06, Critical, section Prep) and the
title `"Launch"`. -/
theorem claim_C8 :
    prepare_gantt_data launchDoc =
      .ok ([{ Task := "Design", Start := ((Date.mk 2024 1 1).toOrdinal : Int),
              Finish := ((Date.mk 2024 1 6).toOrdinal : Int),
              CriticalPath := "Critical", Section := .str "Prep" }],
           .str "Launch") := rfl

/-- C9: on every valid document the parser emits rows in document order:
the flattening is the in-order concatenation over sections of the in-order
mapping over each section's tasks. -/
theorem claim_C9 (data : JVal) (h : validDocB data = true) :
    prepare_gantt_data data =
      .ok ((docSections data).flatMap
             (fun s => (sectionTasks s).map (taskRow (sectionNameOf s))),
           specTitle data) :=
  prepare_eq_spec data h

/-- C9 witness: the worked scenario document, in document order. -/
theorem claim_C9_witness :
    validDocB launchDoc = true ∧
    prepare_gantt_data launchDoc =
      .ok ((docSections launchDoc).flatMap
             (fun s => (sectionTasks s).map (taskRow (sectionNameOf s))),
           specTitle launchDoc) :=
  ⟨rfl, claim_C9 launchDoc rfl⟩

/-- C10: every row the parser ever produces carries exactly `"Critical"` or
`"Non-Critical"`, and the label is the truthiness of the raw `is_critical`
value (absent defaulting to false) — so truthy non-boolean values are
accepted and map to `"Critical"`, falsy or absent ones to `"Non-Critical"`,
and no third label occurs. -/
theorem claim_C10 :
    (∀ (data : JVal) (rows : List Row) (title : JVal),
      prepare_gantt_data data = .ok (rows, title) →
      ∀ r ∈ rows, r.CriticalPath = "Critical" ∨ r.CriticalPath = "Non-Critical") ∧
    (∀ (sn t : JVal) (r : Row), processTask sn t = .ok r →
      r.CriticalPath =
        if pyTruthy ((jGet t "is_critical").getD (.bool false)) then "Critical"
        else "Non-Critical") := by
  constructor
  · intro data rows title h r hr
    obtain ⟨sn, t, hpt⟩ := prepare_mem data rows title r h hr
    rw [processTask_critical sn t r hpt]
    split
    · exact Or.inl rfl
    · exact Or.inr rfl
  · intro sn t r h
    exact processTask_critical sn t r h

/-- C10 witness: a task whose `is_critical` is the non-boolean, truthy
number 2 parses without error and its row is labeled `"Critical"`. -/
theorem claim_C10_witness :
    prepare_gantt_data critDoc = .ok ([critRow], .str "Project Gantt Chart") ∧
    (critRow.CriticalPath = "Critical" ∨ critRow.CriticalPath = "Non-Critical") ∧
    critRow.CriticalPath =
      (if pyTruthy ((jGet critTask "is_critical").getD (.bool false)) then "Critical"
       else "Non-Critical") :=
  ⟨rfl,
   claim_C10.1 critDoc [critRow] (.str "Project Gantt Chart") rfl critRow
     (List.mem_singleton.mpr rfl),
   claim_C10.2 (.str "S") critTask critRow rfl⟩
